import Mathlib

/-!
# steamsearchgo: a shallow embedding of `steamsearch.go`

The Go package queries three HTTP endpoints of a game storefront.  The embedding
below follows the source function by function:

* Go strings are Lean `String`s, `+` is `++`; a Go string is a sequence of bytes
  and a Lean string a sequence of Unicode characters, so the embedding covers the
  strings that are valid UTF-8, as all strings decoded from JSON are;
* a Go `int` is an `Int`: the program does no arithmetic on its integers, it only
  compares them and prints them;
* a Go `error` value is a `GoError`, a possibly-nil error is `Option GoError`;
* multiple return values are tuples, in the order of the Go signature;
* code that prints, performs requests or can hit a runtime panic lives in the
  `Run` monad, which records the steps performed and whether the function
  returned or panicked;
* functions of the Go standard library whose behaviour depends on Unicode tables,
  on the network or on the JSON decoder are parameters (`CaseOps`, `Env`).
-/

namespace SteamSearch

/-! ## Go values -/

/-- A Go `error` value, identified by where it was made and by its message. -/
inductive GoError where
  /-- The value of `errors.New(msg)`. -/
  | errorsNew (msg : String)
  /-- An error returned by `http.Get`. -/
  | transport (msg : String)
  /-- An error returned by `io.ReadAll`. -/
  | read (msg : String)
  /-- An error returned by `json.Unmarshal`. -/
  | json (msg : String)
  deriving DecidableEq, Repr

/-- The method `Error()` of a Go error: its message. -/
def GoError.Error : GoError → String
  | .errorsNew msg => msg
  | .transport msg => msg
  | .read msg => msg
  | .json msg => msg

/-- Go `[]byte`. -/
abbrev Bytes := List UInt8

/-- The struct `searchResult` (source lines 18-23). -/
structure searchResult where
  Appid : String
  Name : String
  Icon : String
  Logo : String
  deriving DecidableEq, Repr

/-- The zero value of `searchResult`: what the named result `info` holds when it
is returned without having been assigned. -/
def searchResult.zero : searchResult := ⟨"", "", "", ""⟩

/-! ## Steps and outcomes -/

/-- One observable step of the program. -/
inductive Event where
  /-- A call `fmt.Println(line)`. -/
  | println (line : String)
  /-- A call `http.Get(uri)`. -/
  | httpGet (uri : String)
  /-- A call `io.ReadAll(resp.Body)`. -/
  | readAll
  /-- A call `json.Unmarshal(body, _)`. -/
  | unmarshal (body : Bytes)
  /-- The deferred call `resp.Body.Close()`. -/
  | close
  deriving DecidableEq, Repr

/-- How a Go function call ends: it returns its results, or the goroutine panics. -/
inductive Outcome (α : Type) where
  | returned (a : α)
  | panicked (msg : String)
  deriving DecidableEq, Repr

/-- A finished run of a piece of Go code: the steps it performed, in order, and
how it ended. -/
structure Run (α : Type) where
  trace : List Event
  outcome : Outcome α

/-- Sequencing: the second part runs only when the first one returned. -/
def Run.bind {α β : Type} (x : Run α) (f : α → Run β) : Run β :=
  match x.outcome with
  | .returned a => ⟨x.trace ++ (f a).trace, (f a).outcome⟩
  | .panicked msg => ⟨x.trace, .panicked msg⟩

instance : Monad Run where
  pure a := ⟨[], .returned a⟩
  bind := Run.bind

/-- Perform one step. -/
def emit (e : Event) : Run Unit := ⟨[e], .returned ()⟩

/-- A runtime panic. -/
def goPanic {α : Type} (msg : String) : Run α := ⟨[], .panicked msg⟩

/-- The message of the panic raised by a field access through a nil pointer. -/
def nilDereference : String :=
  "runtime error: invalid memory address or nil pointer dereference"

/-- The call `fmt.Println(line)`. -/
def Println (line : String) : Run Unit := emit (.println line)

/-! ## The package `strings` -/

/-- The two case-mapping functions of package `strings` that `findAppId` calls.
Their values come from the Unicode tables of the Go runtime, so they are
parameters of the embedding. -/
structure CaseOps where
  /-- The function `strings.EqualFold`. -/
  EqualFold : String → String → Bool
  /-- The function `strings.ToLower`. -/
  ToLower : String → String

/-- Whether `sub` occurs in `s` as a contiguous block. -/
def containsChars : List Char → List Char → Bool
  | [], sub => sub.isEmpty
  | c :: s, sub => sub.isPrefixOf (c :: s) || containsChars s sub

/-- The function `strings.Contains`. -/
def Contains (s substr : String) : Bool := containsChars s.data substr.data

/-- The case mapping restricted to ASCII letters; on ASCII strings it agrees with
the Go functions. -/
def asciiCaseOps : CaseOps where
  EqualFold s t := s.data.map Char.toLower == t.data.map Char.toLower
  ToLower s := ⟨s.data.map Char.toLower⟩

/-! ## `findAppId` (source lines 208-240) -/

/-- How the first loop of `findAppId` ends. -/
inductive ScanExit where
  /-- The loop body executed `return v, nil`. -/
  | exact (v : searchResult)
  /-- The loop ran to the end; `foundApps` holds the partial matches. -/
  | collected (foundApps : List searchResult)
  deriving DecidableEq, Repr

/-- The loop `for _, v := range searchResults` (lines 212-219), started with the
given value of `foundApps`. -/
def findAppId.scan (S : CaseOps) (name : String) :
    List searchResult → List searchResult → Run ScanExit
  | [], foundApps => pure (.collected foundApps)
  | v :: rest, foundApps =>
    if S.EqualFold v.Name name then do
      Println ("found exact match! " ++ v.Name)
      pure (.exact v)
    else if Contains (S.ToLower v.Name) (S.ToLower name) then
      findAppId.scan S name rest (foundApps ++ [v])
    else
      findAppId.scan S name rest foundApps

/-- The loop `for i, v := range foundApps` (lines 230-235): `i` is the index of
the head of the remaining slice, `apps` the text built so far. -/
def findAppId.listNames (maxMatches : Nat) : Nat → List searchResult → String → String
  | _, [], apps => apps
  | i, v :: rest, apps =>
    let apps := apps ++ v.Name ++ "\n"
    if i = maxMatches then apps
    else findAppId.listNames maxMatches (i + 1) rest apps

/-- The function `findAppId`. -/
def findAppId (S : CaseOps) (name : String) (searchResults : List searchResult) :
    Run (searchResult × Option GoError) := do
  let info := searchResult.zero
  match ← findAppId.scan S name searchResults [] with
  | .exact v => pure (v, none)
  | .collected foundApps =>
    if foundApps.length = 0 then
      pure (info, some (.errorsNew
        ("Sorry, I couldn't find any results matching \"" ++ name ++ "\"")))
    else if h : foundApps.length = 1 then
      pure (foundApps[0], none)
    else if foundApps.length > 1 then
      let maxMatches := 20
      let apps := findAppId.listNames maxMatches 0 foundApps ""
      pure (info, some (.errorsNew
        ("Sorry, I found multiple results for \"" ++ name ++
          "\", try one of these possible matches:\n" ++ apps)))
    else
      pure (info, some (.errorsNew "unhandled exception"))

/-! ## The JSON schemas (source lines 25-100) -/

/-- A value decoded into a Go `any`; a number is kept as its text. -/
inductive AnyValue where
  | null
  | bool (b : Bool)
  | number (text : String)
  | string (s : String)
  | array (items : List AnyValue)
  | object (members : List (String × AnyValue))

/-- The field `Platforms` of `appDetails.Data`. -/
structure appDetailsPlatforms where
  Windows : Bool
  Mac : Bool
  Linux : Bool

/-- An element of the field `Categories` of `appDetails.Data`. -/
structure appDetailsCategory where
  ID : Int
  Description : String

/-- An element of the field `Genres` of `appDetails.Data`. -/
structure appDetailsGenre where
  ID : String
  Description : String

/-- An element of the field `Achievements.Highlighted` of `appDetails.Data`. -/
structure appDetailsHighlighted where
  Name : String
  Path : String

/-- The field `Achievements` of `appDetails.Data`. -/
structure appDetailsAchievements where
  Total : Int
  Highlighted : List appDetailsHighlighted

/-- The field `ReleaseDate` of `appDetails.Data`. -/
structure appDetailsReleaseDate where
  ComingSoon : Bool
  Date : String

/-- The field `SupportInfo` of `appDetails.Data`. -/
structure appDetailsSupportInfo where
  URL : String
  Email : String

/-- The field `ContentDescriptors` of `appDetails.Data`. -/
structure appDetailsContentDescriptors where
  Ids : List Int
  Notes : String

/-- The field `Ratings.Dejus` of `appDetails.Data`. -/
structure appDetailsDejus where
  Rating : String
  Descriptors : String
  UseAgeGate : String
  RequiredAge : String

/-- The field `Ratings` of `appDetails.Data`. -/
structure appDetailsRatings where
  Dejus : appDetailsDejus

/-- The field `Data` of `appDetails`; `Type_` is the Go field `Type`. -/
structure appDetailsData where
  Type_ : String
  Name : String
  SteamAppid : Int
  RequiredAge : Int
  IsFree : Bool
  Dlc : List Int
  DetailedDescription : String
  AboutTheGame : String
  ShortDescription : String
  SupportedLanguages : String
  HeaderImage : String
  CapsuleImage : String
  CapsuleImagev5 : String
  Website : String
  Developers : List String
  Publishers : List String
  PackageGroups : List AnyValue
  Platforms : appDetailsPlatforms
  Categories : List appDetailsCategory
  Genres : List appDetailsGenre
  Achievements : appDetailsAchievements
  ReleaseDate : appDetailsReleaseDate
  SupportInfo : appDetailsSupportInfo
  ContentDescriptors : appDetailsContentDescriptors
  Ratings : appDetailsRatings

/-- The struct `appDetails` (source lines 26-87). -/
structure appDetails where
  Success : Bool
  Data : appDetailsData

/-- The zero value of `appDetails`. -/
def appDetails.zero : appDetails where
  Success := false
  Data := {
    Type_ := "", Name := "", SteamAppid := 0, RequiredAge := 0, IsFree := false,
    Dlc := [], DetailedDescription := "", AboutTheGame := "", ShortDescription := "",
    SupportedLanguages := "", HeaderImage := "", CapsuleImage := "",
    CapsuleImagev5 := "", Website := "", Developers := [], Publishers := [],
    PackageGroups := [], Platforms := ⟨false, false, false⟩, Categories := [],
    Genres := [], Achievements := ⟨0, []⟩, ReleaseDate := ⟨false, ""⟩,
    SupportInfo := ⟨"", ""⟩, ContentDescriptors := ⟨[], ""⟩,
    Ratings := ⟨⟨"", "", "", ""⟩⟩ }

/-- The field `QuerySummary` of `reviewInfo`. -/
structure reviewInfoQuerySummary where
  NumReviews : Int
  ReviewScore : Int
  ReviewScoreDesc : String
  TotalPositive : Int
  TotalNegative : Int
  TotalReviews : Int
  deriving DecidableEq, Repr

/-- The struct `reviewInfo` (source lines 90-100). -/
structure reviewInfo where
  Success : Int
  QuerySummary : reviewInfoQuerySummary
  deriving DecidableEq, Repr

/-- A decoded `map[int]appDetails`: its entries, in the order in which the
`range` statement visits them.  Go fixes no iteration order, so claims about the
map hold for every ordering of the entries. -/
abbrev detailsMap := List (Int × appDetails)

/-! ## The outside world -/

/-- The body of an HTTP response as `io.ReadAll` finds it: the bytes read and
the error reported with them, if any. -/
structure ResponseBody where
  data : Bytes
  err : Option GoError
  deriving DecidableEq, Repr

/-- The part of `http.Response` the program uses. -/
structure Response where
  Body : ResponseBody
  deriving DecidableEq, Repr

/-- The standard-library calls whose results come from outside the program.
`http.Get` yields the pair of a possibly-nil response and a possibly-nil error;
each `unmarshal` field yields the value the target variable holds after
`json.Unmarshal(body, &target)` and the error of that call. -/
structure Env where
  /-- The function `url.QueryEscape`. -/
  QueryEscape : String → String
  /-- The function `http.Get`. -/
  httpGet : String → Option Response × Option GoError
  /-- The call `json.Unmarshal(body, &results)` with `results []searchResult`. -/
  unmarshalSearch : Bytes → List searchResult × Option GoError
  /-- The call `json.Unmarshal(body, &review)` with `review reviewInfo`. -/
  unmarshalReview : Bytes → reviewInfo × Option GoError
  /-- The call `json.Unmarshal(body, &wrapper)` with `wrapper map[int]appDetails`. -/
  unmarshalDetails : Bytes → detailsMap × Option GoError

/-- The function `io.ReadAll` applied to a response body. -/
def ReadAll (b : ResponseBody) : Bytes × Option GoError := (b.data, b.err)

/-- The value of `fmt.Sprint` on a string: the string itself. -/
def SprintString (s : String) : String := s

/-- The value of `fmt.Sprint` on an `int`: its decimal digits, after a minus sign
when it is negative. -/
def SprintInt (n : Int) : String := toString n

/-- The value of `fmt.Sprint` on a `[]int`: the elements separated by blanks,
in square brackets. -/
def SprintInts (ns : List Int) : String :=
  "[" ++ " ".intercalate (ns.map SprintInt) ++ "]"

/-- The statement `if err != nil { fmt.Println(err) }`. -/
def printIfErr : Option GoError → Run Unit
  | some err => Println err.Error
  | none => pure ()

def appSearchUriBase : String := "https://steamcommunity.com/actions/SearchApps/"

def appReviewsUri : String := "https://store.steampowered.com/appreviews/"

def appDetailsUri : String := "https://store.steampowered.com/api/appdetails?appids="

/-! ## `steamAppSearch` (source lines 186-206) -/

/-- The function `steamAppSearch`.  The error of `http.Get` is printed and the
function goes on to `resp.Body`, which panics when `resp` is nil. -/
def steamAppSearch (E : Env) (name : String) :
    Run (List searchResult × Option GoError) := do
  let uri := appSearchUriBase ++ E.QueryEscape name
  emit (.httpGet uri)
  let got := E.httpGet uri
  printIfErr got.2
  match got.1 with
  | none => goPanic nilDereference
  | some resp =>
    emit .readAll
    let read := ReadAll resp.Body
    printIfErr read.2
    emit (.unmarshal read.1)
    let decoded := E.unmarshalSearch read.1
    match decoded.2 with
    | some jerr =>
      emit .close
      pure (decoded.1, some jerr)
    | none =>
      emit .close
      pure (decoded.1, none)

/-! ## `getReviewInfo` (source lines 163-184) -/

/-- The function `getReviewInfo`.  The error of `http.Get` is printed and the
function goes on to `resp.Body`, which panics when `resp` is nil; the error of
`io.ReadAll` is discarded. -/
def getReviewInfo (E : Env) (info : searchResult) : Run (String × Option GoError) := do
  let appReviewUri := appReviewsUri ++ SprintString info.Appid ++ "?json=1"
  emit (.httpGet appReviewUri)
  let got := E.httpGet appReviewUri
  printIfErr got.2
  match got.1 with
  | none => goPanic nilDereference
  | some resp =>
    emit .readAll
    let body := (ReadAll resp.Body).1
    emit (.unmarshal body)
    let decoded := E.unmarshalReview body
    let review := decoded.1
    match decoded.2 with
    | some jerr =>
      emit .close
      pure ("", some jerr)
    | none =>
      let blurb := "Reception for " ++ info.Name ++ " is \"" ++
        review.QuerySummary.ReviewScoreDesc ++ "\" recommended by "
      let blurb := blurb ++ SprintInt review.QuerySummary.TotalPositive ++ "/" ++
        SprintInt review.QuerySummary.TotalReviews ++ " reviewers.\n"
      let blurb := blurb ++
        "For more info, check out the store page:\nhttps://store.steampowered.com/app/" ++
        SprintString info.Appid
      emit .close
      pure (blurb, none)

/-! ## `CheckAppIsAdult` (source lines 128-161) -/

/-- The loop `for _, cId := range v.Data.ContentDescriptors.Ids` (lines 152-156):
`true` when its body executes `return true, nil`. -/
def CheckAppIsAdult.rangeIds : List Int → Bool
  | [] => false
  | cId :: rest => if cId = 3 then true else CheckAppIsAdult.rangeIds rest

/-- The loop `for _, v := range wrapper` (lines 150-157): `true` when the
function returns from inside the loop. -/
def CheckAppIsAdult.rangeWrapper : detailsMap → Run Bool
  | [] => pure false
  | (_, v) :: rest => do
    Println ("Content Ids: " ++ SprintInts v.Data.ContentDescriptors.Ids)
    if CheckAppIsAdult.rangeIds v.Data.ContentDescriptors.Ids then
      pure true
    else
      CheckAppIsAdult.rangeWrapper rest

/-- The function `CheckAppIsAdult`.  The error of `io.ReadAll` is discarded. -/
def CheckAppIsAdult (E : Env) (appId : String) : Run (Bool × Option GoError) := do
  let Uri := appDetailsUri ++ appId
  emit (.httpGet Uri)
  let got := E.httpGet Uri
  match got.2 with
  | some err =>
    Println "failed to get app details"
    pure (false, some err)
  | none =>
    match got.1 with
    | none => goPanic nilDereference
    | some resp =>
      emit .readAll
      let body := (ReadAll resp.Body).1
      emit (.unmarshal body)
      let decoded := E.unmarshalDetails body
      match decoded.2 with
      | some jerr =>
        Println jerr.Error
        emit .close
        pure (false, some jerr)
      | none =>
        if ← CheckAppIsAdult.rangeWrapper decoded.1 then
          emit .close
          pure (true, none)
        else
          emit .close
          pure (false, none)

/-! ## `GetAppReview` (source lines 102-126) -/

/-- The function `GetAppReview`. -/
def GetAppReview (S : CaseOps) (E : Env) (searchTxt : String) :
    Run (String × String × Option GoError) := do
  let searched ← steamAppSearch E searchTxt
  match searched.2 with
  | some err =>
    Println err.Error
    pure ("", "", some err)
  | none =>
    let found ← findAppId S searchTxt searched.1
    match found.2 with
    | some err =>
      Println err.Error
      pure ("", "", some err)
    | none =>
      let app := found.1
      let reviewed ← getReviewInfo E app
      match reviewed.2 with
      | some err =>
        Println err.Error
        pure ("", "", some err)
      | none =>
        pure (reviewed.1, app.Appid, none)

/-! ## Definitions used to state the properties -/

/-- The test of line 213: the candidate's name equals the query ignoring case. -/
def isExact (S : CaseOps) (name : String) (v : searchResult) : Bool :=
  S.EqualFold v.Name name

/-- The test of line 216: the lower-cased name of the candidate contains the
lower-cased query. -/
def isSubstringMatch (S : CaseOps) (name : String) (v : searchResult) : Bool :=
  Contains (S.ToLower v.Name) (S.ToLower name)

/-- The names of the given candidates in order, each followed by a newline. -/
def nameLines : List searchResult → String
  | [] => ""
  | v :: rest => v.Name ++ "\n" ++ nameLines rest

/-- The message of the not-found error (line 224). -/
def notFoundMessage (name : String) : String :=
  "Sorry, I couldn't find any results matching \"" ++ name ++ "\""

/-- The fixed beginning of the multiple-results message (line 236). -/
def multipleHeader (name : String) : String :=
  "Sorry, I found multiple results for \"" ++ name ++
    "\", try one of these possible matches:\n"

/-- The prefix of the store page address that ends the review text (line 181). -/
def storePageBase : String := "https://store.steampowered.com/app/"

/-- The address `steamAppSearch` requests for a query. -/
def searchUri (E : Env) (name : String) : String :=
  appSearchUriBase ++ E.QueryEscape name

/-- The address `getReviewInfo` requests for a candidate. -/
def reviewsUri (info : searchResult) : String :=
  appReviewsUri ++ info.Appid ++ "?json=1"

/-- The address `CheckAppIsAdult` requests for an application id. -/
def detailsUri (appId : String) : String := appDetailsUri ++ appId

/-- An entry of the details map has the content descriptor id 3. -/
def hasAdultId (entry : Int × appDetails) : Prop :=
  (3 : Int) ∈ entry.2.Data.ContentDescriptors.Ids

instance (entry : Int × appDetails) : Decidable (hasAdultId entry) :=
  inferInstanceAs (Decidable ((3 : Int) ∈ entry.2.Data.ContentDescriptors.Ids))

/-- The decimal digits of an integer, after a minus sign when it is negative. -/
def decimal (n : Int) : String := toString n

/-- The review text as the specification words it: `Reception for`, the name,
`is`, the review score description in double quotes, `recommended by`, the
number of positive reviews, a slash, the number of all reviews, `reviewers.`, a
newline, `For more info, check out the store page:`, a newline, and the store
page address ending in the application id. -/
def reviewText (name reviewScoreDesc : String) (totalPositive totalReviews : Int)
    (appid : String) : String :=
  "Reception for " ++ (name ++ (" is \"" ++ (reviewScoreDesc ++ ("\" recommended by " ++
    (decimal totalPositive ++ ("/" ++ (decimal totalReviews ++
      (" reviewers.\nFor more info, check out the store page:\nhttps://store.steampowered.com/app/" ++
        appid))))))))

/-! ## A canned world for concrete runs -/

/-- A candidate with the given id and name and no images. -/
def candidate (appid name : String) : searchResult := ⟨appid, name, "", ""⟩

/-- The candidates of the scenario with query `Portal`. -/
def portalCandidates : List searchResult :=
  [candidate "400" "Portal", candidate "620" "Portal 2",
   candidate "317400" "Portal Stories: Mel"]

/-- The candidates of the scenario with query `Half`. -/
def halfCandidates : List searchResult :=
  [candidate "70" "Half-Life", candidate "220" "Half-Life 2"]

/-- Thirty candidates named `a0` to `a29`. -/
def manyCandidates : List searchResult :=
  (List.range 30).map fun i => candidate (toString i) ("a" ++ toString i)

/-- The review summary of the scenario with query `Portal 2`. -/
def portal2Review : reviewInfo :=
  ⟨1, ⟨20, 9, "Overwhelmingly Positive", 9000, 500, 9500⟩⟩

/-- An `appDetails` value whose only non-zero field is the list of content
descriptor ids. -/
def detailsWithIds (ids : List Int) : appDetails :=
  { appDetails.zero with
    Data := { appDetails.zero.Data with ContentDescriptors := ⟨ids, ""⟩ } }

/-- The bytes of an ASCII text. -/
def asciiBytes (s : String) : Bytes := s.data.map fun c => UInt8.ofNat c.toNat

/-- A response without error whose body is the given text. -/
def okResponse (text : String) : Option Response × Option GoError :=
  (some ⟨⟨asciiBytes text, none⟩⟩, none)

/-- The error the canned decoders report for a body they do not know. -/
def decodeError : GoError := .json "invalid character 'o' looking for beginning of value"

/-- The error of the canned network for an address it does not serve. -/
def noSuchHost : GoError := .transport "dial tcp: lookup failed: no such host"

/-- A canned world.  It serves the search results of five queries, the reviews
of application 620 and the details of applications 620 and 70; the responses
are named by short texts which the canned decoders map to Go values.  Every
other request fails with a nil response and a transport error.  `QueryEscape`
writes a blank as `+`, as the Go function does, and keeps all other characters,
as the Go function does for letters and digits. -/
def cannedEnv : Env where
  QueryEscape s := ⟨s.data.map fun c => if c = ' ' then '+' else c⟩
  httpGet uri :=
    if uri = "https://steamcommunity.com/actions/SearchApps/Portal+2" then
      okResponse "portal"
    else if uri = "https://steamcommunity.com/actions/SearchApps/Half" then
      okResponse "half"
    else if uri = "https://steamcommunity.com/actions/SearchApps/Half-Life" then
      okResponse "half"
    else if uri = "https://steamcommunity.com/actions/SearchApps/Mel" then
      okResponse "portal"
    else if uri = "https://steamcommunity.com/actions/SearchApps/oops" then
      okResponse "oops"
    else if uri = "https://store.steampowered.com/appreviews/620?json=1" then
      okResponse "reviews620"
    else if uri = "https://store.steampowered.com/appreviews/317400?json=1" then
      okResponse "oops"
    else if uri = "https://store.steampowered.com/api/appdetails?appids=620" then
      okResponse "details620"
    else if uri = "https://store.steampowered.com/api/appdetails?appids=70" then
      okResponse "details70"
    else
      (none, some noSuchHost)
  unmarshalSearch body :=
    if body = asciiBytes "portal" then (portalCandidates, none)
    else if body = asciiBytes "half" then (halfCandidates, none)
    else ([], some decodeError)
  unmarshalReview body :=
    if body = asciiBytes "reviews620" then (portal2Review, none)
    else (⟨0, ⟨0, 0, "", 0, 0, 0⟩⟩, some decodeError)
  unmarshalDetails body :=
    if body = asciiBytes "details620" then ([(620, detailsWithIds [1, 3, 5])], none)
    else if body = asciiBytes "details70" then ([(70, detailsWithIds [1, 2, 5])], none)
    else ([], some decodeError)

/-! ## Lemmas about `Run` -/

@[simp] theorem Run.outcome_pure {α : Type} (a : α) :
    (pure a : Run α).outcome = .returned a := rfl

@[simp] theorem Run.trace_pure {α : Type} (a : α) : (pure a : Run α).trace = [] := rfl

theorem Run.bind_def {α β : Type} (x : Run α) (f : α → Run β) :
    x >>= f = Run.bind x f := rfl

theorem Run.outcome_bind_returned {α β : Type} {x : Run α} {a : α} (f : α → Run β)
    (h : x.outcome = .returned a) : (x >>= f).outcome = (f a).outcome := by
  simp [Run.bind_def, Run.bind, h]

theorem Run.trace_bind_returned {α β : Type} {x : Run α} {a : α} (f : α → Run β)
    (h : x.outcome = .returned a) : (x >>= f).trace = x.trace ++ (f a).trace := by
  simp [Run.bind_def, Run.bind, h]

theorem Run.outcome_bind_panicked {α β : Type} {x : Run α} {msg : String}
    (f : α → Run β) (h : x.outcome = .panicked msg) :
    (x >>= f).outcome = .panicked msg := by
  simp [Run.bind_def, Run.bind, h]

theorem Run.trace_bind_panicked {α β : Type} {x : Run α} {msg : String}
    (f : α → Run β) (h : x.outcome = .panicked msg) : (x >>= f).trace = x.trace := by
  simp [Run.bind_def, Run.bind, h]

/-! ## Lemmas about the two loops of `findAppId` -/

theorem scan_outcome_exact (S : CaseOps) (name : String) (c : searchResult)
    (post : List searchResult) (hc : S.EqualFold c.Name name = true) :
    ∀ (pre foundApps : List searchResult),
      (∀ v ∈ pre, S.EqualFold v.Name name = false) →
      (findAppId.scan S name (pre ++ c :: post) foundApps).outcome = .returned (.exact c)
  | [], foundApps, _ => by
    simp only [List.nil_append, findAppId.scan, hc, if_true]
    rfl
  | v :: pre, foundApps, hpre => by
    have hv : S.EqualFold v.Name name = false := hpre v (List.mem_cons_self _ _)
    have hrest : ∀ w ∈ pre, S.EqualFold w.Name name = false :=
      fun w hw => hpre w (List.mem_cons_of_mem _ hw)
    simp only [List.cons_append, findAppId.scan, hv, Bool.false_eq_true, if_false]
    split
    · exact scan_outcome_exact S name c post hc pre _ hrest
    · exact scan_outcome_exact S name c post hc pre _ hrest

theorem scan_outcome_collected (S : CaseOps) (name : String) :
    ∀ (l foundApps : List searchResult),
      (∀ v ∈ l, S.EqualFold v.Name name = false) →
      (findAppId.scan S name l foundApps).outcome =
        .returned (.collected (foundApps ++ l.filter (isSubstringMatch S name)))
  | [], foundApps, _ => by simp [findAppId.scan]
  | v :: l, foundApps, hl => by
    have hv : S.EqualFold v.Name name = false := hl v (List.mem_cons_self _ _)
    have hrest : ∀ w ∈ l, S.EqualFold w.Name name = false :=
      fun w hw => hl w (List.mem_cons_of_mem _ hw)
    simp only [findAppId.scan, hv]
    by_cases hp : Contains (S.ToLower v.Name) (S.ToLower name) = true
    · have hp2 : isSubstringMatch S name v = true := hp
      simp [hp, hp2, List.filter_cons, scan_outcome_collected S name l _ hrest]
    · have hp2 : ¬ isSubstringMatch S name v = true := hp
      simp [hp, hp2, List.filter_cons, scan_outcome_collected S name l _ hrest]

/-- Every list either has a first exact match or has none. -/
theorem exact_split (S : CaseOps) (name : String) :
    ∀ l : List searchResult,
      (∀ v ∈ l, S.EqualFold v.Name name = false) ∨
      ∃ pre c post, l = pre ++ c :: post ∧
        (∀ v ∈ pre, S.EqualFold v.Name name = false) ∧ S.EqualFold c.Name name = true
  | [] => Or.inl (by simp)
  | v :: l => by
    by_cases hv : S.EqualFold v.Name name = true
    · exact Or.inr ⟨[], v, l, rfl, by simp, hv⟩
    · have hv2 : S.EqualFold v.Name name = false := by simpa using hv
      rcases exact_split S name l with h | ⟨pre, c, post, hl, hpre, hc⟩
      · left
        intro w hw
        rcases List.mem_cons.mp hw with rfl | hw
        · exact hv2
        · exact h w hw
      · right
        refine ⟨v :: pre, c, post, by simp [hl], ?_, hc⟩
        intro w hw
        rcases List.mem_cons.mp hw with rfl | hw
        · exact hv2
        · exact hpre w hw

theorem listNames_eq (m : Nat) :
    ∀ (l : List searchResult) (i : Nat) (apps : String), i ≤ m →
      findAppId.listNames m i l apps = apps ++ nameLines (l.take (m + 1 - i))
  | [], i, apps, _ => by simp [findAppId.listNames, nameLines]
  | v :: l, i, apps, hi => by
    have h1 : m + 1 - i = (m - i) + 1 := by omega
    simp only [findAppId.listNames, h1, List.take_succ_cons, nameLines]
    by_cases him : i = m
    · subst him
      simp [nameLines, String.append_assoc]
    · have h2 : i + 1 ≤ m := by omega
      have h3 : m + 1 - (i + 1) = m - i := by omega
      simp [him, listNames_eq m l (i + 1) _ h2, h3, String.append_assoc]

/-! ## The results of `findAppId` case by case -/

theorem notFound_ne_unhandled (q : String) : notFoundMessage q ≠ "unhandled exception" := by
  intro h
  have := congrArg String.data h
  simp [notFoundMessage, String.data_append] at this

theorem multiple_ne_unhandled (q apps : String) :
    multipleHeader q ++ apps ≠ "unhandled exception" := by
  intro h
  have := congrArg String.data h
  simp [multipleHeader, String.data_append] at this

theorem notFound_ne_multiple (q apps : String) :
    notFoundMessage q ≠ multipleHeader q ++ apps := by
  intro h
  have := congrArg String.data h
  simp [notFoundMessage, multipleHeader, String.data_append] at this

theorem findAppId_outcome_exact (S : CaseOps) (name : String)
    (pre : List searchResult) (c : searchResult) (post : List searchResult)
    (hpre : ∀ v ∈ pre, S.EqualFold v.Name name = false)
    (hc : S.EqualFold c.Name name = true) :
    (findAppId S name (pre ++ c :: post)).outcome = .returned (c, none) := by
  unfold findAppId
  rw [Run.outcome_bind_returned _ (scan_outcome_exact S name c post hc pre [] hpre)]
  rfl

theorem findAppId_outcome_none (S : CaseOps) (name : String)
    (l : List searchResult) (hl : ∀ v ∈ l, S.EqualFold v.Name name = false)
    (hf : l.filter (isSubstringMatch S name) = []) :
    (findAppId S name l).outcome =
      .returned (searchResult.zero, some (.errorsNew (notFoundMessage name))) := by
  unfold findAppId
  rw [Run.outcome_bind_returned _ (scan_outcome_collected S name l [] hl)]
  simp [hf, notFoundMessage]

theorem findAppId_outcome_one (S : CaseOps) (name : String)
    (l : List searchResult) (c : searchResult)
    (hl : ∀ v ∈ l, S.EqualFold v.Name name = false)
    (hf : l.filter (isSubstringMatch S name) = [c]) :
    (findAppId S name l).outcome = .returned (c, none) := by
  unfold findAppId
  rw [Run.outcome_bind_returned _ (scan_outcome_collected S name l [] hl)]
  simp [hf]

theorem findAppId_outcome_many (S : CaseOps) (name : String)
    (l : List searchResult)
    (hl : ∀ v ∈ l, S.EqualFold v.Name name = false)
    (hf : 2 ≤ (l.filter (isSubstringMatch S name)).length) :
    (findAppId S name l).outcome =
      .returned (searchResult.zero, some (.errorsNew
        (multipleHeader name ++ nameLines ((l.filter (isSubstringMatch S name)).take 21)))) := by
  unfold findAppId
  rw [Run.outcome_bind_returned _ (scan_outcome_collected S name l [] hl)]
  simp only [List.nil_append]
  generalize l.filter (isSubstringMatch S name) = found at hf ⊢
  have h0 : ¬ found.length = 0 := by omega
  have h1 : ¬ found.length = 1 := by omega
  have h2 : found.length > 1 := by omega
  simp [h0, h1, h2, multipleHeader, listNames_eq 20 _ 0 "" (by omega)]

/-! ## Claims about `findAppId` -/

/-- Claim C1: whenever some candidate's name equals the query ignoring case,
`findAppId` returns the first such candidate of the list with a nil error: the
list splits into candidates that are no exact match, the returned candidate, and
an arbitrary rest. -/
theorem findAppId_returns_first_exact_match (S : CaseOps) (name : String)
    (searchResults : List searchResult)
    (h : ∃ v ∈ searchResults, isExact S name v = true) :
    ∃ pre c post, searchResults = pre ++ c :: post ∧
      (∀ v ∈ pre, isExact S name v = false) ∧ isExact S name c = true ∧
      (findAppId S name searchResults).outcome = .returned (c, none) := by
  rcases exact_split S name searchResults with hno | ⟨pre, c, post, hl, hpre, hc⟩
  · obtain ⟨v, hv, hex⟩ := h
    have := hno v hv
    simp [isExact, this] at hex
  · refine ⟨pre, c, post, hl, hpre, hc, ?_⟩
    rw [hl]
    exact findAppId_outcome_exact S name pre c post hpre hc

theorem findAppId_returns_first_exact_match_witness :
    (∃ v ∈ portalCandidates, isExact asciiCaseOps "Portal" v = true) ∧
    (∃ pre c post, portalCandidates = pre ++ c :: post ∧
      (∀ v ∈ pre, isExact asciiCaseOps "Portal" v = false) ∧
      isExact asciiCaseOps "Portal" c = true ∧
      (findAppId asciiCaseOps "Portal" portalCandidates).outcome = .returned (c, none)) ∧
    (findAppId asciiCaseOps "Portal" portalCandidates).outcome =
      .returned (candidate "400" "Portal", none) ∧
    (findAppId asciiCaseOps "portal 2" portalCandidates).outcome =
      .returned (candidate "620" "Portal 2", none) :=
  ⟨⟨candidate "400" "Portal", by decide, by decide⟩,
   findAppId_returns_first_exact_match asciiCaseOps "Portal" portalCandidates
     ⟨candidate "400" "Portal", by decide, by decide⟩,
   by decide, by decide⟩

/-- Claim C2: with no exact match and at least two partial matches, `findAppId`
returns the zero candidate and an error whose message is the fixed header naming
the query followed by the names of the first 21 partial matches (all of them when
there are fewer), in list order, each followed by a newline. -/
theorem findAppId_lists_first_21_substring_matches (S : CaseOps) (name : String)
    (searchResults : List searchResult)
    (hno : ∀ v ∈ searchResults, isExact S name v = false)
    (hk : 2 ≤ (searchResults.filter (isSubstringMatch S name)).length) :
    (findAppId S name searchResults).outcome =
      .returned (searchResult.zero, some (.errorsNew
        ("Sorry, I found multiple results for \"" ++ name ++
          "\", try one of these possible matches:\n" ++
          nameLines ((searchResults.filter (isSubstringMatch S name)).take 21)))) ∧
    ((searchResults.filter (isSubstringMatch S name)).take 21).length =
      min (searchResults.filter (isSubstringMatch S name)).length 21 := by
  refine ⟨?_, ?_⟩
  · exact findAppId_outcome_many S name searchResults hno hk
  · rw [List.length_take, Nat.min_comm]

theorem findAppId_lists_first_21_substring_matches_witness :
    ((∀ v ∈ halfCandidates, isExact asciiCaseOps "Half" v = false) ∧
      2 ≤ (halfCandidates.filter (isSubstringMatch asciiCaseOps "Half")).length) ∧
    ((findAppId asciiCaseOps "Half" halfCandidates).outcome =
      .returned (searchResult.zero, some (.errorsNew
        ("Sorry, I found multiple results for \"" ++ "Half" ++
          "\", try one of these possible matches:\n" ++
          nameLines ((halfCandidates.filter (isSubstringMatch asciiCaseOps "Half")).take 21)))) ∧
     ((halfCandidates.filter (isSubstringMatch asciiCaseOps "Half")).take 21).length =
      min (halfCandidates.filter (isSubstringMatch asciiCaseOps "Half")).length 21) ∧
    (findAppId asciiCaseOps "Half" halfCandidates).outcome =
      .returned (searchResult.zero, some (.errorsNew
        "Sorry, I found multiple results for \"Half\", try one of these possible matches:\nHalf-Life\nHalf-Life 2\n")) ∧
    (findAppId asciiCaseOps "A" manyCandidates).outcome =
      .returned (searchResult.zero, some (.errorsNew
        "Sorry, I found multiple results for \"A\", try one of these possible matches:\na0\na1\na2\na3\na4\na5\na6\na7\na8\na9\na10\na11\na12\na13\na14\na15\na16\na17\na18\na19\na20\n")) :=
  ⟨⟨by decide, by decide⟩,
   findAppId_lists_first_21_substring_matches asciiCaseOps "Half" halfCandidates
     (by decide) (by decide),
   by decide, by decide⟩

/-- Claim C3: with no exact match and no partial match (in particular for the
empty list) `findAppId` returns the zero candidate and the not-found error, whose
message holds the query as given between two fixed pieces of text. -/
theorem findAppId_not_found_names_query (S : CaseOps) (name : String)
    (searchResults : List searchResult)
    (hno : ∀ v ∈ searchResults, isExact S name v = false)
    (hnone : ∀ v ∈ searchResults, isSubstringMatch S name v = false) :
    (findAppId S name searchResults).outcome =
      .returned (searchResult.zero, some (.errorsNew
        ("Sorry, I couldn't find any results matching \"" ++ name ++ "\""))) := by
  have hf : searchResults.filter (isSubstringMatch S name) = [] := by
    rw [List.filter_eq_nil_iff]
    intro v hv
    simp [hnone v hv]
  exact findAppId_outcome_none S name searchResults hno hf

theorem findAppId_not_found_names_query_witness :
    ((∀ v ∈ halfCandidates, isExact asciiCaseOps "pOrTaL" v = false) ∧
      (∀ v ∈ halfCandidates, isSubstringMatch asciiCaseOps "pOrTaL" v = false)) ∧
    (findAppId asciiCaseOps "pOrTaL" halfCandidates).outcome =
      .returned (searchResult.zero, some (.errorsNew
        ("Sorry, I couldn't find any results matching \"" ++ "pOrTaL" ++ "\""))) ∧
    (findAppId asciiCaseOps "pOrTaL" []).outcome =
      .returned (searchResult.zero, some (.errorsNew
        "Sorry, I couldn't find any results matching \"pOrTaL\"")) :=
  ⟨⟨by decide, by decide⟩,
   findAppId_not_found_names_query asciiCaseOps "pOrTaL" halfCandidates
     (by decide) (by decide),
   by decide⟩

/-- Claim C4: with no exact match and exactly one partial match `c`, wherever it
stands among candidates that are no partial match, `findAppId` returns `c` itself
(the whole struct) with a nil error. -/
theorem findAppId_returns_single_substring_match (S : CaseOps) (name : String)
    (pre : List searchResult) (c : searchResult) (post : List searchResult)
    (hno : ∀ v ∈ pre ++ c :: post, isExact S name v = false)
    (hpre : ∀ v ∈ pre, isSubstringMatch S name v = false)
    (hc : isSubstringMatch S name c = true)
    (hpost : ∀ v ∈ post, isSubstringMatch S name v = false) :
    (findAppId S name (pre ++ c :: post)).outcome = .returned (c, none) := by
  have h1 : pre.filter (isSubstringMatch S name) = [] := by
    rw [List.filter_eq_nil_iff]
    intro v hv
    simp [hpre v hv]
  have h2 : post.filter (isSubstringMatch S name) = [] := by
    rw [List.filter_eq_nil_iff]
    intro v hv
    simp [hpost v hv]
  have hf : (pre ++ c :: post).filter (isSubstringMatch S name) = [c] := by
    simp [List.filter_append, List.filter_cons, h1, h2, hc]
  exact findAppId_outcome_one S name (pre ++ c :: post) c hno hf

theorem findAppId_returns_single_substring_match_witness :
    ((∀ v ∈ [candidate "400" "Portal", candidate "620" "Portal 2"] ++
        candidate "317400" "Portal Stories: Mel" :: [candidate "70" "Half-Life"],
        isExact asciiCaseOps "mel" v = false) ∧
      (∀ v ∈ [candidate "400" "Portal", candidate "620" "Portal 2"],
        isSubstringMatch asciiCaseOps "mel" v = false) ∧
      isSubstringMatch asciiCaseOps "mel" (candidate "317400" "Portal Stories: Mel") = true ∧
      (∀ v ∈ [candidate "70" "Half-Life"], isSubstringMatch asciiCaseOps "mel" v = false)) ∧
    (findAppId asciiCaseOps "mel"
      ([candidate "400" "Portal", candidate "620" "Portal 2"] ++
        candidate "317400" "Portal Stories: Mel" :: [candidate "70" "Half-Life"])).outcome =
      .returned (candidate "317400" "Portal Stories: Mel", none) :=
  ⟨⟨by decide, by decide, by decide, by decide⟩,
   findAppId_returns_single_substring_match asciiCaseOps "mel" _ _ _
     (by decide) (by decide) (by decide) (by decide)⟩

/-- Claim C10: `findAppId` never returns the error `unhandled exception` of its
last line.  It always returns, and its results are a candidate of the input list
with a nil error, or the zero candidate with the not-found error, or the zero
candidate with a multiple-results error; these three cases exclude one another. -/
theorem findAppId_never_unhandled (S : CaseOps) (name : String)
    (searchResults : List searchResult) :
    (∀ info, (findAppId S name searchResults).outcome ≠
      .returned (info, some (.errorsNew "unhandled exception"))) ∧
    ((∃ c ∈ searchResults, (findAppId S name searchResults).outcome = .returned (c, none)) ∨
     (findAppId S name searchResults).outcome =
       .returned (searchResult.zero, some (.errorsNew (notFoundMessage name))) ∨
     (∃ apps, (findAppId S name searchResults).outcome =
       .returned (searchResult.zero, some (.errorsNew (multipleHeader name ++ apps))))) ∧
    (∀ c apps, (.returned (c, none) : Outcome (searchResult × Option GoError)) ≠
        .returned (searchResult.zero, some (.errorsNew (notFoundMessage name))) ∧
      (.returned (c, none) : Outcome (searchResult × Option GoError)) ≠
        .returned (searchResult.zero, some (.errorsNew (multipleHeader name ++ apps))) ∧
      (.returned (searchResult.zero, some (.errorsNew (notFoundMessage name))) :
          Outcome (searchResult × Option GoError)) ≠
        .returned (searchResult.zero, some (.errorsNew (multipleHeader name ++ apps)))) := by
  have hcases :
      (∃ c ∈ searchResults, (findAppId S name searchResults).outcome = .returned (c, none)) ∨
      (findAppId S name searchResults).outcome =
        .returned (searchResult.zero, some (.errorsNew (notFoundMessage name))) ∨
      (∃ apps, (findAppId S name searchResults).outcome =
        .returned (searchResult.zero, some (.errorsNew (multipleHeader name ++ apps)))) := by
    rcases exact_split S name searchResults with hno | ⟨pre, c, post, hl, hpre, hc⟩
    · match hf : searchResults.filter (isSubstringMatch S name) with
      | [] => exact Or.inr (Or.inl (findAppId_outcome_none S name searchResults hno hf))
      | [c] =>
        refine Or.inl ⟨c, ?_, findAppId_outcome_one S name searchResults c hno hf⟩
        have hc : c ∈ searchResults.filter (isSubstringMatch S name) := by simp [hf]
        exact (List.mem_filter.mp hc).1
      | c :: d :: rest =>
        refine Or.inr (Or.inr ⟨_, findAppId_outcome_many S name searchResults hno ?_⟩)
        simp [hf]
    · refine Or.inl ⟨c, by simp [hl], ?_⟩
      rw [hl]
      exact findAppId_outcome_exact S name pre c post hpre hc
  refine ⟨?_, hcases, ?_⟩
  · intro info hbad
    rcases hcases with ⟨c, _, hc⟩ | hnf | ⟨apps, hm⟩
    · rw [hc] at hbad
      simp at hbad
    · rw [hnf] at hbad
      simp only [Outcome.returned.injEq, Prod.mk.injEq, Option.some.injEq,
        GoError.errorsNew.injEq] at hbad
      exact notFound_ne_unhandled name hbad.2
    · rw [hm] at hbad
      simp only [Outcome.returned.injEq, Prod.mk.injEq, Option.some.injEq,
        GoError.errorsNew.injEq] at hbad
      exact multiple_ne_unhandled name apps hbad.2
  · intro c apps
    refine ⟨by simp, by simp, ?_⟩
    intro h
    simp only [Outcome.returned.injEq, Prod.mk.injEq, Option.some.injEq,
      GoError.errorsNew.injEq, true_and] at h
    exact notFound_ne_multiple name apps h

/-! ## Stepping through the requests -/

@[simp] theorem Run.outcome_emit_bind {β : Type} (e : Event) (f : Unit → Run β) :
    (emit e >>= f).outcome = (f ()).outcome := rfl

@[simp] theorem Run.trace_emit_bind {β : Type} (e : Event) (f : Unit → Run β) :
    (emit e >>= f).trace = e :: (f ()).trace := rfl

@[simp] theorem Run.outcome_Println_bind {β : Type} (line : String) (f : Unit → Run β) :
    (Println line >>= f).outcome = (f ()).outcome := rfl

@[simp] theorem Run.trace_Println_bind {β : Type} (line : String) (f : Unit → Run β) :
    (Println line >>= f).trace = .println line :: (f ()).trace := rfl

@[simp] theorem Run.outcome_printIfErr_bind {β : Type} (err : Option GoError)
    (f : Unit → Run β) : (printIfErr err >>= f).outcome = (f ()).outcome := by
  cases err <;> rfl

@[simp] theorem Run.trace_printIfErr_bind {β : Type} (err : Option GoError)
    (f : Unit → Run β) :
    (printIfErr err >>= f).trace = (printIfErr err).trace ++ (f ()).trace := by
  cases err <;> rfl

@[simp] theorem Run.outcome_goPanic {α : Type} (msg : String) :
    (goPanic msg : Run α).outcome = .panicked msg := rfl

@[simp] theorem Run.trace_goPanic {α : Type} (msg : String) :
    (goPanic msg : Run α).trace = [] := rfl

@[simp] theorem Run.outcome_emit (e : Event) : (emit e).outcome = .returned () := rfl

@[simp] theorem Run.trace_emit (e : Event) : (emit e).trace = [e] := rfl

theorem getReviewInfo_outcome_ok (E : Env) (info : searchResult) (resp : Response)
    (review : reviewInfo)
    (hget : (E.httpGet (reviewsUri info)).1 = some resp)
    (hdec : E.unmarshalReview resp.Body.data = (review, none)) :
    (getReviewInfo E info).outcome =
      .returned (reviewText info.Name review.QuerySummary.ReviewScoreDesc
        review.QuerySummary.TotalPositive review.QuerySummary.TotalReviews info.Appid,
        none) := by
  have hget2 : (E.httpGet (appReviewsUri ++ info.Appid ++ "?json=1")).1 = some resp := hget
  simp only [getReviewInfo, SprintString, Run.outcome_emit_bind, Run.outcome_printIfErr_bind,
    hget2, ReadAll, hdec, Run.outcome_pure]
  simp [reviewText, decimal, SprintInt, String.append_assoc]

theorem getReviewInfo_outcome_jerr (E : Env) (info : searchResult) (resp : Response)
    (review : reviewInfo) (jerr : GoError)
    (hget : (E.httpGet (reviewsUri info)).1 = some resp)
    (hdec : E.unmarshalReview resp.Body.data = (review, some jerr)) :
    (getReviewInfo E info).outcome = .returned ("", some jerr) := by
  have hget2 : (E.httpGet (appReviewsUri ++ info.Appid ++ "?json=1")).1 = some resp := hget
  simp only [getReviewInfo, SprintString, Run.outcome_emit_bind, Run.outcome_printIfErr_bind,
    hget2, ReadAll, hdec, Run.outcome_pure]

theorem getReviewInfo_outcome_nil (E : Env) (info : searchResult)
    (hget : (E.httpGet (reviewsUri info)).1 = none) :
    (getReviewInfo E info).outcome = .panicked nilDereference := by
  have hget2 : (E.httpGet (appReviewsUri ++ info.Appid ++ "?json=1")).1 = none := hget
  simp only [getReviewInfo, SprintString, Run.outcome_emit_bind, Run.outcome_printIfErr_bind,
    hget2, Run.outcome_goPanic]

theorem getReviewInfo_trace_nil (E : Env) (info : searchResult)
    (hget : (E.httpGet (reviewsUri info)).1 = none) :
    (getReviewInfo E info).trace =
      .httpGet (reviewsUri info) :: (printIfErr (E.httpGet (reviewsUri info)).2).trace := by
  have hget2 : (E.httpGet (appReviewsUri ++ info.Appid ++ "?json=1")).1 = none := hget
  simp only [getReviewInfo, SprintString, Run.trace_emit_bind, Run.trace_printIfErr_bind,
    hget2, Run.trace_goPanic, List.append_nil]
  rfl

theorem steamAppSearch_outcome_some (E : Env) (name : String) (resp : Response)
    (hget : (E.httpGet (searchUri E name)).1 = some resp) :
    (steamAppSearch E name).outcome = .returned (E.unmarshalSearch resp.Body.data) := by
  have hget2 : (E.httpGet (appSearchUriBase ++ E.QueryEscape name)).1 = some resp := hget
  simp only [steamAppSearch, Run.outcome_emit_bind, Run.outcome_printIfErr_bind,
    hget2, ReadAll]
  cases h : (E.unmarshalSearch resp.Body.data).2 with
  | none =>
    simp only [Run.outcome_emit_bind, Run.outcome_pure]
    rw [← h]
  | some jerr =>
    simp only [Run.outcome_emit_bind, Run.outcome_pure]
    rw [← h]

theorem steamAppSearch_outcome_nil (E : Env) (name : String)
    (hget : (E.httpGet (searchUri E name)).1 = none) :
    (steamAppSearch E name).outcome = .panicked nilDereference := by
  have hget2 : (E.httpGet (appSearchUriBase ++ E.QueryEscape name)).1 = none := hget
  simp only [steamAppSearch, Run.outcome_emit_bind, Run.outcome_printIfErr_bind,
    hget2, Run.outcome_goPanic]

theorem steamAppSearch_trace_nil (E : Env) (name : String)
    (hget : (E.httpGet (searchUri E name)).1 = none) :
    (steamAppSearch E name).trace =
      .httpGet (searchUri E name) :: (printIfErr (E.httpGet (searchUri E name)).2).trace := by
  have hget2 : (E.httpGet (appSearchUriBase ++ E.QueryEscape name)).1 = none := hget
  simp only [steamAppSearch, Run.trace_emit_bind, Run.trace_printIfErr_bind,
    hget2, Run.trace_goPanic, List.append_nil]
  rfl

/-! ## The adult-content check -/

theorem rangeIds_eq_true_iff (ids : List Int) :
    CheckAppIsAdult.rangeIds ids = true ↔ (3 : Int) ∈ ids := by
  induction ids with
  | nil => simp [CheckAppIsAdult.rangeIds]
  | cons cId rest ih =>
    by_cases h : cId = 3
    · simp [CheckAppIsAdult.rangeIds, h]
    · have h2 : ¬ (3 : Int) = cId := fun h3 => h h3.symm
      simp [CheckAppIsAdult.rangeIds, h, h2, ih]

theorem rangeWrapper_outcome (wrapper : detailsMap) :
    ∃ b, (CheckAppIsAdult.rangeWrapper wrapper).outcome = .returned b ∧
      (b = true ↔ ∃ entry ∈ wrapper, hasAdultId entry) := by
  induction wrapper with
  | nil => exact ⟨false, rfl, by simp⟩
  | cons entry rest ih =>
    obtain ⟨k, v⟩ := entry
    by_cases h : CheckAppIsAdult.rangeIds v.Data.ContentDescriptors.Ids = true
    · refine ⟨true, ?_, ?_⟩
      · simp only [CheckAppIsAdult.rangeWrapper, Run.outcome_Println_bind, h, if_true,
          Run.outcome_pure]
      · simp only [true_iff]
        exact ⟨(k, v), List.mem_cons_self _ _, (rangeIds_eq_true_iff _).mp h⟩
    · obtain ⟨b, hb, hiff⟩ := ih
      refine ⟨b, ?_, ?_⟩
      · simp only [CheckAppIsAdult.rangeWrapper, Run.outcome_Println_bind, h, if_false]
        exact hb
      · have hnot : ¬ hasAdultId (k, v) := fun h3 => h ((rangeIds_eq_true_iff _).mpr h3)
        rw [hiff]
        constructor
        · rintro ⟨e, he, h3⟩
          exact ⟨e, List.mem_cons_of_mem _ he, h3⟩
        · rintro ⟨e, he, h3⟩
          rcases List.mem_cons.mp he with rfl | he
          · exact absurd h3 hnot
          · exact ⟨e, he, h3⟩

theorem CheckAppIsAdult_outcome_decoded (E : Env) (appId : String) (resp : Response)
    (wrapper : detailsMap)
    (hget : E.httpGet (detailsUri appId) = (some resp, none))
    (hdec : E.unmarshalDetails resp.Body.data = (wrapper, none)) :
    ∃ b, (CheckAppIsAdult E appId).outcome = .returned (b, none) ∧
      (b = true ↔ ∃ entry ∈ wrapper, hasAdultId entry) := by
  have hget2 : E.httpGet (appDetailsUri ++ appId) = (some resp, none) := hget
  obtain ⟨b, hb, hiff⟩ := rangeWrapper_outcome wrapper
  refine ⟨b, ?_, hiff⟩
  simp only [CheckAppIsAdult, Run.outcome_emit_bind, hget2, ReadAll, hdec]
  rw [Run.outcome_bind_returned _ hb]
  cases b <;> rfl

theorem CheckAppIsAdult_outcome_transport (E : Env) (appId : String)
    (resp : Option Response) (err : GoError)
    (hget : E.httpGet (detailsUri appId) = (resp, some err)) :
    (CheckAppIsAdult E appId).outcome = .returned (false, some err) ∧
    (CheckAppIsAdult E appId).trace =
      [.httpGet (detailsUri appId), .println "failed to get app details"] := by
  have hget2 : E.httpGet (appDetailsUri ++ appId) = (resp, some err) := hget
  constructor
  · simp only [CheckAppIsAdult, Run.outcome_emit_bind, hget2, Run.outcome_Println_bind,
      Run.outcome_pure]
  · simp only [CheckAppIsAdult, Run.trace_emit_bind, hget2, Run.trace_Println_bind,
      Run.trace_pure]
    rfl

/-- Claim C5: when the details request succeeds and its body decodes to a
mapping, `CheckAppIsAdult` returns `true` with a nil error exactly when some
entry's list of content descriptor ids contains 3, and `false` with a nil error
exactly when none does (so for the empty mapping, for entries without ids and
for ids that are all different from 3); the results are the same for every
order in which the entries are visited. -/
theorem CheckAppIsAdult_true_iff_descriptor_3 (E : Env) (appId : String)
    (resp : Response) (wrapper : detailsMap)
    (hget : E.httpGet (detailsUri appId) = (some resp, none))
    (hdec : E.unmarshalDetails resp.Body.data = (wrapper, none)) :
    ((CheckAppIsAdult E appId).outcome = .returned (true, none) ↔
      ∃ entry ∈ wrapper, hasAdultId entry) ∧
    ((CheckAppIsAdult E appId).outcome = .returned (false, none) ↔
      ¬ ∃ entry ∈ wrapper, hasAdultId entry) ∧
    (∀ (E2 : Env) (appId2 : String) (resp2 : Response) (wrapper2 : detailsMap),
      E2.httpGet (detailsUri appId2) = (some resp2, none) →
      E2.unmarshalDetails resp2.Body.data = (wrapper2, none) →
      wrapper2.Perm wrapper →
      (CheckAppIsAdult E2 appId2).outcome = (CheckAppIsAdult E appId).outcome) := by
  obtain ⟨b, hb, hiff⟩ := CheckAppIsAdult_outcome_decoded E appId resp wrapper hget hdec
  refine ⟨?_, ?_, ?_⟩
  · rw [hb, ← hiff]
    simp
  · rw [hb, ← hiff]
    simp
  · intro E2 appId2 resp2 wrapper2 hget2 hdec2 hperm
    obtain ⟨b2, hb2, hiff2⟩ :=
      CheckAppIsAdult_outcome_decoded E2 appId2 resp2 wrapper2 hget2 hdec2
    have hbb : b2 = true ↔ b = true := by
      rw [hiff, hiff2]
      constructor
      · rintro ⟨e, he, h3⟩
        exact ⟨e, hperm.mem_iff.mp he, h3⟩
      · rintro ⟨e, he, h3⟩
        exact ⟨e, hperm.mem_iff.mpr he, h3⟩
    have : b2 = b := by
      cases b <;> cases b2 <;> simp_all
    rw [hb, hb2, this]

theorem CheckAppIsAdult_true_iff_descriptor_3_witness :
    (cannedEnv.httpGet (detailsUri "620") = (some ⟨⟨asciiBytes "details620", none⟩⟩, none) ∧
      cannedEnv.unmarshalDetails (asciiBytes "details620") =
        ([(620, detailsWithIds [1, 3, 5])], none)) ∧
    (((CheckAppIsAdult cannedEnv "620").outcome = .returned (true, none) ↔
        ∃ entry ∈ [((620 : Int), detailsWithIds [1, 3, 5])], hasAdultId entry) ∧
      ((CheckAppIsAdult cannedEnv "620").outcome = .returned (false, none) ↔
        ¬ ∃ entry ∈ [((620 : Int), detailsWithIds [1, 3, 5])], hasAdultId entry) ∧
      (∀ (E2 : Env) (appId2 : String) (resp2 : Response) (wrapper2 : detailsMap),
        E2.httpGet (detailsUri appId2) = (some resp2, none) →
        E2.unmarshalDetails resp2.Body.data = (wrapper2, none) →
        wrapper2.Perm [((620 : Int), detailsWithIds [1, 3, 5])] →
        (CheckAppIsAdult E2 appId2).outcome = (CheckAppIsAdult cannedEnv "620").outcome)) ∧
    (CheckAppIsAdult cannedEnv "620").outcome = .returned (true, none) ∧
    (CheckAppIsAdult cannedEnv "70").outcome = .returned (false, none) :=
  ⟨⟨by decide, rfl⟩,
   CheckAppIsAdult_true_iff_descriptor_3 cannedEnv "620"
     ⟨⟨asciiBytes "details620", none⟩⟩ [(620, detailsWithIds [1, 3, 5])] (by decide) rfl,
   by decide, by decide⟩

/-! ## The steps performed and the results of `GetAppReview` -/

theorem scan_returns (S : CaseOps) (name : String) :
    ∀ (l foundApps : List searchResult),
      ∃ r, (findAppId.scan S name l foundApps).outcome = .returned r
  | [], foundApps => ⟨_, rfl⟩
  | v :: l, foundApps => by
    simp only [findAppId.scan]
    split
    · exact ⟨_, rfl⟩
    · split
      · exact scan_returns S name l _
      · exact scan_returns S name l _

theorem scan_trace (S : CaseOps) (name : String) :
    ∀ (l foundApps : List searchResult),
      ∀ ev ∈ (findAppId.scan S name l foundApps).trace, ∃ line, ev = .println line
  | [], foundApps => by simp [findAppId.scan]
  | v :: l, foundApps => by
    simp only [findAppId.scan]
    split
    · intro ev hev
      simp only [Run.trace_Println_bind, Run.trace_pure, List.mem_singleton] at hev
      exact ⟨_, hev⟩
    · split
      · exact scan_trace S name l _
      · exact scan_trace S name l _

/-- Every step of `findAppId` is a call of `fmt.Println`. -/
theorem findAppId_trace (S : CaseOps) (name : String) (l : List searchResult) :
    ∀ ev ∈ (findAppId S name l).trace, ∃ line, ev = .println line := by
  obtain ⟨r, hr⟩ := scan_returns S name l []
  intro ev hev
  unfold findAppId at hev
  rw [Run.trace_bind_returned _ hr] at hev
  rcases List.mem_append.mp hev with h | h
  · exact scan_trace S name l [] ev h
  · exfalso
    revert h
    cases r with
    | exact v => simp
    | collected foundApps =>
      simp only
      split
      · simp
      · split
        · simp
        · split <;> simp

theorem printIfErr_trace (err : Option GoError) :
    ∀ ev ∈ (printIfErr err).trace, ∃ line, ev = .println line := by
  cases err with
  | none => simp [printIfErr]
  | some e =>
    intro ev hev
    simp only [printIfErr, Println, Run.trace_emit, List.mem_singleton] at hev
    exact ⟨_, hev⟩

/-- The only request of `steamAppSearch` is the one to the search address. -/
theorem steamAppSearch_trace_httpGet (E : Env) (name uri : String)
    (h : Event.httpGet uri ∈ (steamAppSearch E name).trace) : uri = searchUri E name := by
  simp only [steamAppSearch, Run.trace_emit_bind, Run.trace_printIfErr_bind,
    List.mem_cons, Event.httpGet.injEq, List.mem_append] at h
  rcases h with h | h | h
  · exact h
  · obtain ⟨line, hl⟩ := printIfErr_trace _ _ h
    cases hl
  · exfalso
    revert h
    cases (E.httpGet (appSearchUriBase ++ E.QueryEscape name)).1 with
    | none => simp
    | some resp =>
      simp only [Run.trace_emit_bind, Run.trace_printIfErr_bind, ReadAll, List.mem_cons,
        List.mem_append, false_or]
      rintro (h | h | h | h)
      · cases h
      · obtain ⟨line, hl⟩ := printIfErr_trace _ _ h
        cases hl
      · cases h
      · revert h
        cases (E.unmarshalSearch resp.Body.data).2 <;> simp

theorem searchUri_ne_reviewsUri (E : Env) (name : String) (app : searchResult) :
    searchUri E name ≠ reviewsUri app := by
  intro h
  have := congrArg String.data h
  simp [searchUri, reviewsUri, appSearchUriBase, appReviewsUri, String.data_append] at this

theorem GetAppReview_outcome_search_err (S : CaseOps) (E : Env) (searchTxt : String)
    (l : List searchResult) (err : GoError)
    (hs : (steamAppSearch E searchTxt).outcome = .returned (l, some err)) :
    (GetAppReview S E searchTxt).outcome = .returned ("", "", some err) := by
  unfold GetAppReview
  rw [Run.outcome_bind_returned _ hs]
  rfl

theorem GetAppReview_outcome_find_err (S : CaseOps) (E : Env) (searchTxt : String)
    (l : List searchResult) (info : searchResult) (err : GoError)
    (hs : (steamAppSearch E searchTxt).outcome = .returned (l, none))
    (hf : (findAppId S searchTxt l).outcome = .returned (info, some err)) :
    (GetAppReview S E searchTxt).outcome = .returned ("", "", some err) := by
  unfold GetAppReview
  rw [Run.outcome_bind_returned _ hs]
  simp only
  rw [Run.outcome_bind_returned _ hf]
  rfl

theorem GetAppReview_trace_find_err (S : CaseOps) (E : Env) (searchTxt : String)
    (l : List searchResult) (info : searchResult) (err : GoError)
    (hs : (steamAppSearch E searchTxt).outcome = .returned (l, none))
    (hf : (findAppId S searchTxt l).outcome = .returned (info, some err)) :
    (GetAppReview S E searchTxt).trace =
      (steamAppSearch E searchTxt).trace ++
        ((findAppId S searchTxt l).trace ++ [.println err.Error]) := by
  unfold GetAppReview
  rw [Run.trace_bind_returned _ hs]
  simp only
  rw [Run.trace_bind_returned _ hf]
  rfl

theorem GetAppReview_outcome_review_err (S : CaseOps) (E : Env) (searchTxt : String)
    (l : List searchResult) (c : searchResult) (text : String) (err : GoError)
    (hs : (steamAppSearch E searchTxt).outcome = .returned (l, none))
    (hf : (findAppId S searchTxt l).outcome = .returned (c, none))
    (hr : (getReviewInfo E c).outcome = .returned (text, some err)) :
    (GetAppReview S E searchTxt).outcome = .returned ("", "", some err) := by
  unfold GetAppReview
  rw [Run.outcome_bind_returned _ hs]
  simp only
  rw [Run.outcome_bind_returned _ hf]
  simp only
  rw [Run.outcome_bind_returned _ hr]
  rfl

theorem GetAppReview_outcome_ok (S : CaseOps) (E : Env) (searchTxt : String)
    (l : List searchResult) (c : searchResult) (text : String)
    (hs : (steamAppSearch E searchTxt).outcome = .returned (l, none))
    (hf : (findAppId S searchTxt l).outcome = .returned (c, none))
    (hr : (getReviewInfo E c).outcome = .returned (text, none)) :
    (GetAppReview S E searchTxt).outcome = .returned (text, c.Appid, none) := by
  unfold GetAppReview
  rw [Run.outcome_bind_returned _ hs]
  simp only
  rw [Run.outcome_bind_returned _ hf]
  simp only
  rw [Run.outcome_bind_returned _ hr]
  rfl

theorem GetAppReview_outcome_review_panic (S : CaseOps) (E : Env) (searchTxt : String)
    (l : List searchResult) (c : searchResult) (msg : String)
    (hs : (steamAppSearch E searchTxt).outcome = .returned (l, none))
    (hf : (findAppId S searchTxt l).outcome = .returned (c, none))
    (hr : (getReviewInfo E c).outcome = .panicked msg) :
    (GetAppReview S E searchTxt).outcome = .panicked msg := by
  unfold GetAppReview
  rw [Run.outcome_bind_returned _ hs]
  simp only
  rw [Run.outcome_bind_returned _ hf]
  simp only
  rw [Run.outcome_bind_panicked _ hr]

theorem GetAppReview_search_panic (S : CaseOps) (E : Env) (searchTxt : String)
    (msg : String) (hs : (steamAppSearch E searchTxt).outcome = .panicked msg) :
    (GetAppReview S E searchTxt).outcome = .panicked msg ∧
    (GetAppReview S E searchTxt).trace = (steamAppSearch E searchTxt).trace := by
  unfold GetAppReview
  exact ⟨Run.outcome_bind_panicked _ hs, Run.trace_bind_panicked _ hs⟩

/-! ## Claims about the review lookup -/

/-- Claim C6: when the reviews request yields a response whose body decodes to a
review summary, the text `getReviewInfo` returns is exactly
`Reception for ` name ` is "` reviewScoreDesc `" recommended by `
totalPositive `/` totalReviews ` reviewers.`, a newline,
`For more info, check out the store page:`, a newline and the store page address
ending in the application id, with both counts in decimal; every run on inputs
with the same name, application id, description and two counts returns the same
text, whatever the other fields hold. -/
theorem getReviewInfo_builds_review_text (E : Env) (info : searchResult)
    (resp : Response) (review : reviewInfo)
    (hget : (E.httpGet (reviewsUri info)).1 = some resp)
    (hdec : E.unmarshalReview resp.Body.data = (review, none)) :
    (getReviewInfo E info).outcome =
      .returned ("Reception for " ++ (info.Name ++ (" is \"" ++
        (review.QuerySummary.ReviewScoreDesc ++ ("\" recommended by " ++
        (decimal review.QuerySummary.TotalPositive ++ ("/" ++
        (decimal review.QuerySummary.TotalReviews ++
        (" reviewers.\nFor more info, check out the store page:\nhttps://store.steampowered.com/app/" ++
        info.Appid)))))))), none) ∧
    (∀ (E2 : Env) (info2 : searchResult) (resp2 : Response) (review2 : reviewInfo),
      (E2.httpGet (reviewsUri info2)).1 = some resp2 →
      E2.unmarshalReview resp2.Body.data = (review2, none) →
      info2.Name = info.Name → info2.Appid = info.Appid →
      review2.QuerySummary.ReviewScoreDesc = review.QuerySummary.ReviewScoreDesc →
      review2.QuerySummary.TotalPositive = review.QuerySummary.TotalPositive →
      review2.QuerySummary.TotalReviews = review.QuerySummary.TotalReviews →
      (getReviewInfo E2 info2).outcome = (getReviewInfo E info).outcome) := by
  refine ⟨getReviewInfo_outcome_ok E info resp review hget hdec, ?_⟩
  intro E2 info2 resp2 review2 hget2 hdec2 hn ha hd hp ht
  rw [getReviewInfo_outcome_ok E info resp review hget hdec,
    getReviewInfo_outcome_ok E2 info2 resp2 review2 hget2 hdec2, hn, ha, hd, hp, ht]

theorem getReviewInfo_builds_review_text_witness :
    ((cannedEnv.httpGet (reviewsUri (candidate "620" "Portal 2"))).1 =
        some ⟨⟨asciiBytes "reviews620", none⟩⟩ ∧
      cannedEnv.unmarshalReview (asciiBytes "reviews620") = (portal2Review, none)) ∧
    ((getReviewInfo cannedEnv (candidate "620" "Portal 2")).outcome =
      .returned ("Reception for " ++ ("Portal 2" ++ (" is \"" ++
        ("Overwhelmingly Positive" ++ ("\" recommended by " ++
        (decimal 9000 ++ ("/" ++
        (decimal 9500 ++
        (" reviewers.\nFor more info, check out the store page:\nhttps://store.steampowered.com/app/" ++
        "620")))))))), none) ∧
     (∀ (E2 : Env) (info2 : searchResult) (resp2 : Response) (review2 : reviewInfo),
      (E2.httpGet (reviewsUri info2)).1 = some resp2 →
      E2.unmarshalReview resp2.Body.data = (review2, none) →
      info2.Name = "Portal 2" → info2.Appid = "620" →
      review2.QuerySummary.ReviewScoreDesc = "Overwhelmingly Positive" →
      review2.QuerySummary.TotalPositive = 9000 →
      review2.QuerySummary.TotalReviews = 9500 →
      (getReviewInfo E2 info2).outcome =
        (getReviewInfo cannedEnv (candidate "620" "Portal 2")).outcome)) ∧
    (getReviewInfo cannedEnv (candidate "620" "Portal 2")).outcome =
      .returned ("Reception for Portal 2 is \"Overwhelmingly Positive\" recommended by 9000/9500 reviewers.\nFor more info, check out the store page:\nhttps://store.steampowered.com/app/620", none) :=
  ⟨⟨by decide, by decide⟩,
   getReviewInfo_builds_review_text cannedEnv (candidate "620" "Portal 2")
     ⟨⟨asciiBytes "reviews620", none⟩⟩ portal2Review (by decide) (by decide),
   by rfl⟩

/-- Claim C7: when `steamAppSearch`, `findAppId` or `getReviewInfo` returns a
non-nil error, `GetAppReview` returns that very error with an empty text and an
empty application id; when it is `findAppId` that fails, the only request the
whole call performs is the search request, so no reviews address is requested. -/
theorem GetAppReview_propagates_errors (S : CaseOps) (E : Env) (searchTxt : String) :
    (∀ (l : List searchResult) (err : GoError),
      (steamAppSearch E searchTxt).outcome = .returned (l, some err) →
      (GetAppReview S E searchTxt).outcome = .returned ("", "", some err)) ∧
    (∀ (l : List searchResult) (info : searchResult) (err : GoError),
      (steamAppSearch E searchTxt).outcome = .returned (l, none) →
      (findAppId S searchTxt l).outcome = .returned (info, some err) →
      (GetAppReview S E searchTxt).outcome = .returned ("", "", some err) ∧
      (∀ uri, Event.httpGet uri ∈ (GetAppReview S E searchTxt).trace →
        uri = searchUri E searchTxt) ∧
      (∀ app, Event.httpGet (reviewsUri app) ∉ (GetAppReview S E searchTxt).trace)) ∧
    (∀ (l : List searchResult) (c : searchResult) (text : String) (err : GoError),
      (steamAppSearch E searchTxt).outcome = .returned (l, none) →
      (findAppId S searchTxt l).outcome = .returned (c, none) →
      (getReviewInfo E c).outcome = .returned (text, some err) →
      (GetAppReview S E searchTxt).outcome = .returned ("", "", some err)) := by
  refine ⟨?_, ?_, ?_⟩
  · intro l err hs
    exact GetAppReview_outcome_search_err S E searchTxt l err hs
  · intro l info err hs hf
    have hreq : ∀ uri, Event.httpGet uri ∈ (GetAppReview S E searchTxt).trace →
        uri = searchUri E searchTxt := by
      intro uri huri
      rw [GetAppReview_trace_find_err S E searchTxt l info err hs hf] at huri
      rcases List.mem_append.mp huri with h | h
      · exact steamAppSearch_trace_httpGet E searchTxt uri h
      · rcases List.mem_append.mp h with h | h
        · obtain ⟨line, hl⟩ := findAppId_trace S searchTxt l _ h
          cases hl
        · simp at h
    refine ⟨GetAppReview_outcome_find_err S E searchTxt l info err hs hf, hreq, ?_⟩
    intro app happ
    exact searchUri_ne_reviewsUri E searchTxt app (hreq _ happ).symm
  · intro l c text err hs hf hr
    exact GetAppReview_outcome_review_err S E searchTxt l c text err hs hf hr

theorem GetAppReview_propagates_errors_witness :
    ((steamAppSearch cannedEnv "oops").outcome = .returned ([], some decodeError) ∧
      (GetAppReview asciiCaseOps cannedEnv "oops").outcome =
        .returned ("", "", some decodeError)) ∧
    (((steamAppSearch cannedEnv "Half").outcome = .returned (halfCandidates, none) ∧
      (findAppId asciiCaseOps "Half" halfCandidates).outcome =
        .returned (searchResult.zero, some (.errorsNew
          (multipleHeader "Half" ++ "Half-Life\nHalf-Life 2\n")))) ∧
      (GetAppReview asciiCaseOps cannedEnv "Half").outcome =
        .returned ("", "", some (.errorsNew
          (multipleHeader "Half" ++ "Half-Life\nHalf-Life 2\n"))) ∧
      (∀ uri, Event.httpGet uri ∈ (GetAppReview asciiCaseOps cannedEnv "Half").trace →
        uri = searchUri cannedEnv "Half") ∧
      (∀ app, Event.httpGet (reviewsUri app) ∉
        (GetAppReview asciiCaseOps cannedEnv "Half").trace)) ∧
    (((steamAppSearch cannedEnv "Mel").outcome = .returned (portalCandidates, none) ∧
      (findAppId asciiCaseOps "Mel" portalCandidates).outcome =
        .returned (candidate "317400" "Portal Stories: Mel", none) ∧
      (getReviewInfo cannedEnv (candidate "317400" "Portal Stories: Mel")).outcome =
        .returned ("", some decodeError)) ∧
      (GetAppReview asciiCaseOps cannedEnv "Mel").outcome =
        .returned ("", "", some decodeError)) :=
  ⟨⟨by decide,
    (GetAppReview_propagates_errors asciiCaseOps cannedEnv "oops").1 [] decodeError
      (by decide)⟩,
   ⟨⟨by decide, by decide⟩,
    (GetAppReview_propagates_errors asciiCaseOps cannedEnv "Half").2.1 halfCandidates
      searchResult.zero _ (by decide) (by decide)⟩,
   ⟨⟨by decide, by decide, by decide⟩,
    (GetAppReview_propagates_errors asciiCaseOps cannedEnv "Mel").2.2 portalCandidates
      (candidate "317400" "Portal Stories: Mel") "" decodeError
      (by decide) (by decide) (by decide)⟩⟩

theorem GetAppReview_trace_ok (S : CaseOps) (E : Env) (searchTxt : String)
    (l : List searchResult) (c : searchResult) (text : String)
    (hs : (steamAppSearch E searchTxt).outcome = .returned (l, none))
    (hf : (findAppId S searchTxt l).outcome = .returned (c, none))
    (hr : (getReviewInfo E c).outcome = .returned (text, none)) :
    (GetAppReview S E searchTxt).trace =
      (steamAppSearch E searchTxt).trace ++
        ((findAppId S searchTxt l).trace ++ (getReviewInfo E c).trace) := by
  unfold GetAppReview
  rw [Run.trace_bind_returned _ hs]
  simp only
  rw [Run.trace_bind_returned _ hf]
  simp only
  rw [Run.trace_bind_returned _ hr]
  simp

/-- Claim C9: when the search response decodes to a candidate list, `findAppId`
returns the candidate `c` for it, and the reviews response for `c` decodes to a
summary, `GetAppReview` returns a nil error, the application id of `c` as its
second result and, as its first, the review text of `c` and the summary (which
is what `getReviewInfo` returns); that text ends with the store page prefix
followed by the returned application id.  The steps are those of the search,
then of the resolution, then of the review lookup. -/
theorem GetAppReview_returns_text_and_id (S : CaseOps) (E : Env) (searchTxt : String)
    (resp : Response) (l : List searchResult) (c : searchResult)
    (resp2 : Response) (review : reviewInfo)
    (hs : (E.httpGet (searchUri E searchTxt)).1 = some resp)
    (hl : E.unmarshalSearch resp.Body.data = (l, none))
    (hf : (findAppId S searchTxt l).outcome = .returned (c, none))
    (hr : (E.httpGet (reviewsUri c)).1 = some resp2)
    (hdec : E.unmarshalReview resp2.Body.data = (review, none)) :
    (GetAppReview S E searchTxt).outcome =
      .returned (reviewText c.Name review.QuerySummary.ReviewScoreDesc
        review.QuerySummary.TotalPositive review.QuerySummary.TotalReviews c.Appid,
        c.Appid, none) ∧
    (getReviewInfo E c).outcome =
      .returned (reviewText c.Name review.QuerySummary.ReviewScoreDesc
        review.QuerySummary.TotalPositive review.QuerySummary.TotalReviews c.Appid,
        none) ∧
    (∃ pre, reviewText c.Name review.QuerySummary.ReviewScoreDesc
        review.QuerySummary.TotalPositive review.QuerySummary.TotalReviews c.Appid =
      pre ++ (storePageBase ++ c.Appid)) ∧
    (GetAppReview S E searchTxt).trace =
      (steamAppSearch E searchTxt).trace ++
        ((findAppId S searchTxt l).trace ++ (getReviewInfo E c).trace) := by
  have h1 : (steamAppSearch E searchTxt).outcome = .returned (l, none) := by
    rw [steamAppSearch_outcome_some E searchTxt resp hs, hl]
  have h3 := getReviewInfo_outcome_ok E c resp2 review hr hdec
  refine ⟨GetAppReview_outcome_ok S E searchTxt l c _ h1 hf h3, h3, ?_,
    GetAppReview_trace_ok S E searchTxt l c _ h1 hf h3⟩
  refine ⟨"Reception for " ++ (c.Name ++ (" is \"" ++
    (review.QuerySummary.ReviewScoreDesc ++ ("\" recommended by " ++
    (decimal review.QuerySummary.TotalPositive ++ ("/" ++
    (decimal review.QuerySummary.TotalReviews ++
    " reviewers.\nFor more info, check out the store page:\n"))))))), ?_⟩
  have hsplit :
      " reviewers.\nFor more info, check out the store page:\nhttps://store.steampowered.com/app/" =
        " reviewers.\nFor more info, check out the store page:\n" ++
          "https://store.steampowered.com/app/" := by decide
  simp only [reviewText, storePageBase, String.append_assoc]
  rw [hsplit, String.append_assoc]

theorem GetAppReview_returns_text_and_id_witness :
    ((cannedEnv.httpGet (searchUri cannedEnv "Portal 2")).1 =
        some ⟨⟨asciiBytes "portal", none⟩⟩ ∧
      cannedEnv.unmarshalSearch (asciiBytes "portal") = (portalCandidates, none) ∧
      (findAppId asciiCaseOps "Portal 2" portalCandidates).outcome =
        .returned (candidate "620" "Portal 2", none) ∧
      (cannedEnv.httpGet (reviewsUri (candidate "620" "Portal 2"))).1 =
        some ⟨⟨asciiBytes "reviews620", none⟩⟩ ∧
      cannedEnv.unmarshalReview (asciiBytes "reviews620") = (portal2Review, none)) ∧
    ((GetAppReview asciiCaseOps cannedEnv "Portal 2").outcome =
      .returned (reviewText "Portal 2" "Overwhelmingly Positive" 9000 9500 "620",
        "620", none) ∧
     (getReviewInfo cannedEnv (candidate "620" "Portal 2")).outcome =
      .returned (reviewText "Portal 2" "Overwhelmingly Positive" 9000 9500 "620", none) ∧
     (∃ pre, reviewText "Portal 2" "Overwhelmingly Positive" 9000 9500 "620" =
      pre ++ (storePageBase ++ "620")) ∧
     (GetAppReview asciiCaseOps cannedEnv "Portal 2").trace =
      (steamAppSearch cannedEnv "Portal 2").trace ++
        ((findAppId asciiCaseOps "Portal 2" portalCandidates).trace ++
          (getReviewInfo cannedEnv (candidate "620" "Portal 2")).trace)) ∧
    (GetAppReview asciiCaseOps cannedEnv "Portal 2").outcome =
      .returned ("Reception for Portal 2 is \"Overwhelmingly Positive\" recommended by 9000/9500 reviewers.\nFor more info, check out the store page:\nhttps://store.steampowered.com/app/620",
        "620", none) :=
  ⟨⟨by decide, by decide, by decide, by decide, by decide⟩,
   GetAppReview_returns_text_and_id asciiCaseOps cannedEnv "Portal 2"
     ⟨⟨asciiBytes "portal", none⟩⟩ portalCandidates (candidate "620" "Portal 2")
     ⟨⟨asciiBytes "reviews620", none⟩⟩ portal2Review
     (by decide) (by decide) (by decide) (by decide) (by decide),
   by rfl⟩

/-- Claim C8, evaluated on the canned world: the search request for `offline`
fails with a nil response and a transport error, and `GetAppReview` prints the
error, panics on `resp.Body` and returns nothing; the same happens when the
reviews request (here for application 70) fails; `CheckAppIsAdult` does return
the transport error of its request after printing a fixed line. -/
theorem GetAppReview_transport_error_panics :
    (cannedEnv.httpGet (searchUri cannedEnv "offline") = (none, some noSuchHost) ∧
      (GetAppReview asciiCaseOps cannedEnv "offline").outcome = .panicked nilDereference ∧
      (GetAppReview asciiCaseOps cannedEnv "offline").trace =
        [.httpGet (searchUri cannedEnv "offline"), .println noSuchHost.Error]) ∧
    ((steamAppSearch cannedEnv "Half-Life").outcome = .returned (halfCandidates, none) ∧
      (findAppId asciiCaseOps "Half-Life" halfCandidates).outcome =
        .returned (candidate "70" "Half-Life", none) ∧
      cannedEnv.httpGet (reviewsUri (candidate "70" "Half-Life")) =
        (none, some noSuchHost) ∧
      (GetAppReview asciiCaseOps cannedEnv "Half-Life").outcome =
        .panicked nilDereference) ∧
    (cannedEnv.httpGet (detailsUri "400") = (none, some noSuchHost) ∧
      (CheckAppIsAdult cannedEnv "400").outcome = .returned (false, some noSuchHost) ∧
      (CheckAppIsAdult cannedEnv "400").trace =
        [.httpGet (detailsUri "400"), .println "failed to get app details"]) := by
  refine ⟨⟨by decide, by decide, by decide⟩, ⟨by decide, by decide, by decide, by decide⟩,
    ⟨by decide, by decide, by decide⟩⟩

end SteamSearch
